import Mathlib

/-!
# Verification of the cBench validation engine (`compiler_gym/envs/llvm/datasets/cbench.py`)

This file gives a shallow embedding of the validation-and-comparison engine of the
cBench dataset module: the process runner / compile stage / runtime-error classifier
(`_compile_and_run_bitcode_file`), the differential validator (`validator_cb`), and the
flakiness retry wrapper (`flaky_wrapped_cb`).

External effects (the clang subprocess, the benchmark subprocess, the filesystem, the
external `diff` utility) are modelled as explicit *world* inputs describing the outcome
each external interaction would have; the embedded functions are straight translations
of the Python control flow over those worlds.  Captured process output is modelled as
`Option String`: `some s` means the raw bytes decode as UTF-8 to `s`, `none` means the
bytes do not decode (the code then substitutes the "<binary>" sentinel).  Wall-clock
quantities are `Rat`.
-/

/-! ## String helpers

Python's `pat in s` substring test and `s.replace(pat, repl)` (replace all,
leftmost-match, non-overlapping), re-implemented over character lists so that they
compute by kernel reduction. -/

/-- If `pat` is a prefix of `s`, return the remainder of `s` after the match. -/
def stripPre : List Char → List Char → Option (List Char)
  | [], s => some s
  | _ :: _, [] => none
  | p :: ps, c :: cs => if p = c then stripPre ps cs else none

/-- Substring test on character lists (Python `pat in s`). -/
def containsSub (pat : List Char) : List Char → Bool
  | [] => (stripPre pat []).isSome
  | c :: rest => (stripPre pat (c :: rest)).isSome || containsSub pat rest

/-- Python `pat in s` on strings. -/
def strContains (s pat : String) : Bool :=
  containsSub pat.data s.data

/-- Fuel-driven replace-all on character lists.  With `fuel = s.length` and a
non-empty pattern this performs Python's `str.replace`: scan left to right, replace
each non-overlapping occurrence of `pat` by `repl`. -/
def replAux (pat repl : List Char) : Nat → List Char → List Char
  | 0, s => s
  | _ + 1, [] => []
  | fuel + 1, c :: rest =>
    match stripPre pat (c :: rest) with
    | some remainder => repl ++ replAux pat repl fuel remainder
    | none => c :: replAux pat repl fuel rest

/-- Python `s.replace(pat, repl)` for a non-empty pattern. -/
def strReplace (s pat repl : String) : String :=
  ⟨replAux pat.data repl.data s.data.length s.data⟩

/-! ## Data model -/

/-- `compiler_gym.validation_result.ValidationError`: a typed error with a mapping of
diagnostic context data.  The heterogeneous Python dict values are stringified. -/
structure ValidationError where
  type : String
  data : List (String × String)
  deriving Repr, DecidableEq

/-- `BenchmarkExecutionResult`: the result of running a benchmark. -/
structure BenchmarkExecutionResult where
  walltime_seconds : Rat
  error : Option ValidationError
  output : Option String
  deriving Repr, DecidableEq

/-- `LlvmSanitizer`: the LLVM sanitizers. -/
inductive LlvmSanitizer where
  | ASAN
  | TSAN
  | MSAN
  | UBSAN
  deriving Repr, DecidableEq

/-- `_SANITIZER_FLAGS`: compiler flags that are enabled by sanitizers. -/
def sanitizer_flags : LlvmSanitizer → List String
  | LlvmSanitizer.ASAN => ["-O1", "-g", "-fsanitize=address", "-fno-omit-frame-pointer"]
  | LlvmSanitizer.TSAN => ["-O1", "-g", "-fsanitize=thread"]
  | LlvmSanitizer.MSAN => ["-O1", "-g", "-fsanitize=memory"]
  | LlvmSanitizer.UBSAN => ["-fsanitize=undefined"]

/-- Outcome of the clang compile subprocess, were it invoked
(`universal_newlines=True`, so its captured output is text). -/
inductive CompileOutcome where
  | timeout
  | completed (returncode : Int) (output : String)
  deriving Repr, DecidableEq

/-- Outcome of the benchmark subprocess, were it invoked: either it exceeds the
execution timeout, or it completes with an exit code, captured combined
stdout/stderr (`some s` when the bytes decode as UTF-8, `none` otherwise) and a
measured wall-clock time. -/
inductive ExecOutcome where
  | timeout
  | completed (returncode : Int) (stdoutDecoded : Option String) (time : Rat)
  deriving Repr, DecidableEq

/-- The external interactions one `_compile_and_run_bitcode_file` call can make. -/
structure CompileRunWorld where
  clang : CompileOutcome
  run : ExecOutcome
  deriving Repr, DecidableEq

/-- Trace step: an invocation of the native compiler or of the benchmark process. -/
inductive CRStep where
  | compileInvoke
  | execInvoke
  deriving Repr, DecidableEq

/-- Full outcome of an embedded `_compile_and_run_bitcode_file` call: the returned
`BenchmarkExecutionResult`, the subprocess invocations made (in order), the shell
command the benchmark process executes (`error_data["runCommand"]`), and the iteration
count written to the `_finfo_dataset` control file. -/
structure CompileRunOutcome where
  result : BenchmarkExecutionResult
  steps : List CRStep
  runCommand : String
  finfo_dataset : Nat
  deriving Repr, DecidableEq

/-- The runtime-error classification of `_compile_and_run_bitcode_file`
(lines 214–227): given the sanitizer in effect, a non-zero exit code and the decoded
output, choose the error type.  Rules are checked in this fixed order, first match
winning. -/
def classify_error_type (sanitizer : Option LlvmSanitizer) (returncode : Int)
    (output : String) : String :=
  if sanitizer = some LlvmSanitizer.ASAN ∧ strContains output "LeakSanitizer" = true then
    "Memory leak"
  else if sanitizer = some LlvmSanitizer.ASAN ∧ strContains output "AddressSanitizer" = true then
    "Memory error"
  else if sanitizer = some LlvmSanitizer.MSAN ∧ strContains output "MemorySanitizer" = true then
    "Memory error"
  else if strContains output "Segmentation fault" = true then
    "Segmentation fault"
  else if strContains output "Illegal Instruction" = true then
    "Illegal Instruction"
  else
    "Runtime error (" ++ toString returncode ++ ")"

/-- The execution phase of `_compile_and_run_bitcode_file` (lines 177–238): run the
benchmark command; on `subprocess.TimeoutExpired` return "Execution timeout" with the
*configured* timeout as the reported walltime; otherwise decode the output
(`"<binary>"` on decode failure) and classify a non-zero exit code. -/
def run_phase (w : CompileRunWorld) (sanitizer : Option LlvmSanitizer)
    (timeout_seconds : Rat) (error_data : List (String × String))
    (steps : List CRStep) (runCommand : String) (num_runs : Nat) : CompileRunOutcome :=
  match w.run with
  | ExecOutcome.timeout =>
    { result :=
        { walltime_seconds := timeout_seconds
          error := some
            { type := "Execution timeout"
              data := error_data ++ [("timeout_seconds", toString timeout_seconds)] }
          output := none }
      steps := steps ++ [CRStep.execInvoke]
      runCommand := runCommand
      finfo_dataset := num_runs }
  | ExecOutcome.completed rc stdoutDecoded time =>
    let output := stdoutDecoded.getD "<binary>"
    if rc ≠ 0 then
      { result :=
          { walltime_seconds := time
            error := some
              { type := classify_error_type sanitizer rc output
                data := error_data ++ [("return_code", toString rc), ("output", output)] }
            output := none }
        steps := steps ++ [CRStep.execInvoke]
        runCommand := runCommand
        finfo_dataset := num_runs }
    else
      { result := { walltime_seconds := time, error := none, output := some output }
        steps := steps ++ [CRStep.execInvoke]
        runCommand := runCommand
        finfo_dataset := num_runs }

/-- `_compile_and_run_bitcode_file` (lines 92–238).  When a sanitizer is requested,
clang is invoked first to produce `a.out` (with a separate, shorter compilation
timeout; compile timeout and non-zero compiler exit both return with
`walltime_seconds = timeout_seconds`, the *execution* timeout value); otherwise the
compile stage is skipped and the bitcode is run through `lli` directly.
`_COMPILE_ARGS` is empty on linux and is omitted. -/
def compile_and_run_bitcode_file (w : CompileRunWorld) (cmd : String)
    (linkopts : List String) (sanitizer : Option LlvmSanitizer) (num_runs : Nat)
    (timeout_seconds compilation_timeout_seconds : Rat) : CompileRunOutcome :=
  match sanitizer with
  | some san =>
    let runCommand := strReplace cmd "$BIN" "./a.out"
    let compile_cmd :=
      ["clang", "benchmark.bc", "-o", "a.out"] ++ linkopts ++ sanitizer_flags san
    let error_data :=
      [("runCommand", runCommand), ("compile_cmd", String.intercalate " " compile_cmd)]
    match w.clang with
    | CompileOutcome.timeout =>
      { result :=
          { walltime_seconds := timeout_seconds
            error := some
              { type := "Compilation timeout"
                data := error_data ++ [("timeout", toString compilation_timeout_seconds)] }
            output := none }
        steps := [CRStep.compileInvoke]
        runCommand := runCommand
        finfo_dataset := num_runs }
    | CompileOutcome.completed rc out =>
      if rc ≠ 0 then
        { result :=
            { walltime_seconds := timeout_seconds
              error := some
                { type := "Compilation failed", data := error_data ++ [("output", out)] }
              output := none }
          steps := [CRStep.compileInvoke]
          runCommand := runCommand
          finfo_dataset := num_runs }
      else
        run_phase w (some san) timeout_seconds error_data [CRStep.compileInvoke]
          runCommand num_runs
  | none =>
    let runCommand := strReplace cmd "$BIN" "lli benchmark.bc"
    let error_data := [("runCommand", runCommand)]
    run_phase w none timeout_seconds error_data [] runCommand num_runs

/-! ## Differential validator (`validator_cb`, lines 288–408) -/

/-- Path of the shared runtime-data directory
(`site_data_path("llvm-v0/cbench-v1-runtime-data/runtime_data")`). -/
def cbench_data : String := "llvm-v0/cbench-v1-runtime-data/runtime_data"

/-- The uncaught Python exceptions the validator can raise. -/
inductive PyExc where
  | fileNotFound (msg : String)
  | timeoutError
  deriving Repr, DecidableEq

/-- Outcome of one `validator_cb` invocation: a normal return (of an optional
`ValidationError`) or an exception propagating out. -/
inductive ValidatorOutcome where
  | ok (err : Option ValidationError)
  | exn (e : PyExc)
  deriving Repr, DecidableEq

/-- Observable events of one validation attempt, in order. -/
inductive VEvent where
  | createScratch
  | preExecHook
  | goldRun
  | candRun
  | resultHook
  | consoleDiff
  | fileDiff (name : String)
  deriving Repr, DecidableEq

/-- The configuration captured by one `_make_cBench_validator` closure. -/
structure ValidatorConfig where
  cmd : String
  linkopts : List String
  num_runs : Nat
  compare_output : Bool
  input_files : List String
  output_files : List String
  validate_result : Option (BenchmarkExecutionResult → Option String)
  has_pre_execution_callback : Bool
  sanitizer : Option LlvmSanitizer
  flakiness : Int

/-- The external state one validation attempt interacts with: existence of required
input files, the subprocess worlds of the gold-standard and candidate runs, the
contents (when generated) of each declared output file after each run, and the
external `diff` utility (mapping the two file contents to its exit code and decoded
stdout, `none` when the bytes do not decode as UTF-8). -/
structure AttemptWorld where
  inputFileExists : String → Bool
  goldWorld : CompileRunWorld
  goldFileContent : String → Option (List Nat)
  candWorld : CompileRunWorld
  candFileContent : String → Option (List Nat)
  diffTool : List Nat → List Nat → Int × Option String

/-- The file-diff loop of `validator_cb` (lines 384–408): for each declared output
file, require that the candidate generated it (else "Output not generated"), then
run the external diff against the `.gold_standard` sibling; a non-zero diff exit
code yields "Wrong output (file)" with the decoded diff text ("<binary>" when the
diff output cannot be decoded). -/
def difftestOutputFiles (cfg : ValidatorConfig) (w : AttemptWorld) :
    List String → Option ValidationError
  | [] => none
  | name :: rest =>
    match w.candFileContent name with
    | none => some { type := "Output not generated", data := [("path", name), ("command", cfg.cmd)] }
    | some candBytes =>
      let goldBytes := (w.goldFileContent name).getD []
      let diffOut := w.diffTool candBytes goldBytes
      if diffOut.1 ≠ 0 then
        match diffOut.2 with
        | some s => some { type := "Wrong output (file)", data := [("path", name), ("diff", s)] }
        | none => some { type := "Wrong output (file)", data := [("path", name), ("diff", "<binary>")] }
      else
        difftestOutputFiles cfg w rest

/-- Python `str` rendering of an optional output, as stored in the "Wrong output"
diagnostic data. -/
def optOutputStr : Option String → String
  | some s => s
  | none => "None"

/-- Continuation of `validator_cb` after the gold-standard phase (lines 357–408):
candidate compile+run, propagation of its error, the (discarded) result-checker
hook, the console diff and the file diffs.  `gold` is the gold-standard result when
one was produced (always the case when `compare_output` is set). -/
def validatorRest (cfg : ValidatorConfig) (w : AttemptWorld) (expanded_command : String)
    (gold : Option BenchmarkExecutionResult) (ev : List VEvent) :
    ValidatorOutcome × List VEvent :=
  let outcome := (compile_and_run_bitcode_file w.candWorld expanded_command cfg.linkopts
    cfg.sanitizer cfg.num_runs 300 60).result
  let ev := ev ++ [VEvent.candRun]
  match outcome.error with
  | some e => (ValidatorOutcome.ok (some e), ev)
  | none =>
    -- Line 374–375: the hook is called but its return value is discarded.
    let ev := ev ++ (match cfg.validate_result with
      | some f =>
        let _diagnostic := f outcome
        [VEvent.resultHook]
      | none => [])
    let consoleErr : Option ValidationError :=
      match gold with
      | some g =>
        if cfg.compare_output = true ∧ g.output ≠ outcome.output then
          some { type := "Wrong output"
                 data := [("expected", optOutputStr g.output), ("actual", optOutputStr outcome.output)] }
        else none
      | none => none
    let ev := ev ++ (if cfg.compare_output then [VEvent.consoleDiff] else [])
    match consoleErr with
    | some e => (ValidatorOutcome.ok (some e), ev)
    | none =>
      (ValidatorOutcome.ok (difftestOutputFiles cfg w cfg.output_files),
       ev ++ cfg.output_files.map VEvent.fileDiff)

/-- `validator_cb` (lines 288–408), one validation attempt.  In order: check the
required input files (raising `FileNotFoundError` before the scratch directory is
created), create the scratch directory, expand `$D` in the command, run the optional
pre-execution hook, produce the gold standard (when console comparison or output
files are requested) — an oracle error is re-tagged "Gold standard: " and returned
immediately, and a missing oracle output file raises `FileNotFoundError` — then run
the candidate and the diffs (`validatorRest`). -/
def validator_cb (cfg : ValidatorConfig) (w : AttemptWorld) :
    ValidatorOutcome × List VEvent :=
  match cfg.input_files.find? (fun name => ! w.inputFileExists name) with
  | some name =>
    (ValidatorOutcome.exn (PyExc.fileNotFound
      ("Required benchmark input not found: " ++ cbench_data ++ "/" ++ name)), [])
  | none =>
    let ev := [VEvent.createScratch]
    let expanded_command := strReplace cfg.cmd "$D" cbench_data
    let ev := ev ++ (if cfg.has_pre_execution_callback then [VEvent.preExecHook] else [])
    if cfg.compare_output || ! cfg.output_files.isEmpty then
      let gold_standard := (compile_and_run_bitcode_file w.goldWorld expanded_command
        (cfg.linkopts ++ ["-O2"]) none 1 300 60).result
      let ev := ev ++ [VEvent.goldRun]
      match gold_standard.error with
      | some e =>
        (ValidatorOutcome.ok (some { type := "Gold standard: " ++ e.type, data := e.data }), ev)
      | none =>
        match cfg.output_files.find? (fun name => (w.goldFileContent name).isNone) with
        | some name =>
          (ValidatorOutcome.exn (PyExc.fileNotFound
            ("Expected file " ++ name ++ " not generated")), ev)
        | none => validatorRest cfg w expanded_command (some gold_standard) ev
    else
      validatorRest cfg w expanded_command none ev

/-! ## Flakiness retry wrapper (`flaky_wrapped_cb`, lines 410–422) -/

/-- Result of the wrapper: Python returns `None` on success, returns the last
assigned `error` on budget exhaustion — which raises `UnboundLocalError` when no
attempt ever assigned `error` — and lets any non-`TimeoutError` exception
propagate. -/
inductive WrapperResult where
  | success
  | err (e : ValidationError)
  | unboundLocalError
  | uncaught (e : PyExc)
  deriving Repr, DecidableEq

/-- The retry loop of `flaky_wrapped_cb`: iterate over the attempt indices `js`,
threading the Python local variable `error` (unassigned = `none`) and counting the
invocations of the wrapped callback.  A successful attempt returns immediately;
`TimeoutError` is caught and retried; any other exception propagates. -/
def flakyIter (attempt : Nat → ValidatorOutcome) :
    List Nat → Option ValidationError → Nat → WrapperResult × Nat
  | [], lastError, calls =>
    (match lastError with
     | none => WrapperResult.unboundLocalError
     | some e => WrapperResult.err e, calls)
  | j :: rest, lastError, calls =>
    match attempt j with
    | ValidatorOutcome.ok none => (WrapperResult.success, calls + 1)
    | ValidatorOutcome.ok (some e) => flakyIter attempt rest (some e) (calls + 1)
    | ValidatorOutcome.exn PyExc.timeoutError => flakyIter attempt rest lastError (calls + 1)
    | ValidatorOutcome.exn (PyExc.fileNotFound m) =>
      (WrapperResult.uncaught (PyExc.fileNotFound m), calls + 1)

/-- `flaky_wrapped_cb` (lines 410–422): run the attempt for
`j in range(1, max(flakiness, 1) + 1)`, returning the wrapper result together with
the number of times the attempt was invoked. -/
def flaky_wrapped_cb (flakiness : Int) (attempt : Nat → ValidatorOutcome) :
    WrapperResult × Nat :=
  flakyIter attempt (List.range' 1 (max flakiness 1).toNat) none 0

/-! ## Claims about `_compile_and_run_bitcode_file` -/

/-- C1: for a run that exits non-zero under AddressSanitizer whose output contains
both the leak-detector marker "LeakSanitizer" and the generic marker
"AddressSanitizer", the classifier assigns "Memory leak" (the first rule in the
fixed leak → ASAN → MSAN → segfault → illegal-instruction → generic order), not
"Memory error". -/
theorem asan_leak_classified_before_memory_error
    (w : CompileRunWorld) (cmd : String) (linkopts : List String) (num_runs : Nat)
    (T CT : Rat) (rc : Int) (outc out : String) (time : Rat)
    (hclang : w.clang = CompileOutcome.completed 0 outc)
    (hrun : w.run = ExecOutcome.completed rc (some out) time)
    (hrc : rc ≠ 0)
    (hleak : strContains out "LeakSanitizer" = true)
    ( _hasan : strContains out "AddressSanitizer" = true) :
    classify_error_type (some LlvmSanitizer.ASAN) rc out = "Memory leak"
    ∧ (compile_and_run_bitcode_file w cmd linkopts (some LlvmSanitizer.ASAN) num_runs
        T CT).result.error.map ValidationError.type = some "Memory leak"
    ∧ (compile_and_run_bitcode_file w cmd linkopts (some LlvmSanitizer.ASAN) num_runs
        T CT).result.error.map ValidationError.type ≠ some "Memory error" := by
  have hcl : classify_error_type (some LlvmSanitizer.ASAN) rc out = "Memory leak" := by
    unfold classify_error_type
    rw [if_pos ⟨rfl, hleak⟩]
  have h2 : (compile_and_run_bitcode_file w cmd linkopts (some LlvmSanitizer.ASAN) num_runs
      T CT).result.error.map ValidationError.type = some "Memory leak" := by
    simp [compile_and_run_bitcode_file, hclang, run_phase, hrun, hrc, hcl]
  refine ⟨hcl, h2, ?_⟩
  rw [h2]
  decide

/-- Closed witness for C1: a concrete ASAN run whose output holds both markers. -/
theorem asan_leak_classified_before_memory_error_witness :
    classify_error_type (some LlvmSanitizer.ASAN) 1
        "==ERROR: AddressSanitizer: LeakSanitizer detected leaks" = "Memory leak"
    ∧ (compile_and_run_bitcode_file
        ⟨CompileOutcome.completed 0 "",
         ExecOutcome.completed 1 (some "==ERROR: AddressSanitizer: LeakSanitizer detected leaks") 2⟩
        "$BIN" [] (some LlvmSanitizer.ASAN) 1 300 60).result.error.map ValidationError.type
      = some "Memory leak"
    ∧ (compile_and_run_bitcode_file
        ⟨CompileOutcome.completed 0 "",
         ExecOutcome.completed 1 (some "==ERROR: AddressSanitizer: LeakSanitizer detected leaks") 2⟩
        "$BIN" [] (some LlvmSanitizer.ASAN) 1 300 60).result.error.map ValidationError.type
      ≠ some "Memory error" :=
  asan_leak_classified_before_memory_error _ "$BIN" [] 1 300 60 1 ""
    "==ERROR: AddressSanitizer: LeakSanitizer detected leaks" 2 rfl rfl
    (by decide) (by decide) (by decide)

/-- C2: an execution that exceeds the timeout budget `T` yields an
"Execution timeout" error whose reported `walltime_seconds` is exactly the
configured `T` (not a measured elapsed time). -/
theorem execution_timeout_reports_configured_timeout
    (w : CompileRunWorld) (cmd : String) (linkopts : List String) (num_runs : Nat)
    (san : Option LlvmSanitizer) (T CT : Rat)
    (hrun : w.run = ExecOutcome.timeout)
    (hcompile : ∀ s, san = some s → ∃ outc, w.clang = CompileOutcome.completed 0 outc) :
    (compile_and_run_bitcode_file w cmd linkopts san num_runs T CT).result.error.map
        ValidationError.type = some "Execution timeout"
    ∧ (compile_and_run_bitcode_file w cmd linkopts san num_runs T CT).result.walltime_seconds
      = T := by
  cases san with
  | none => constructor <;> simp [compile_and_run_bitcode_file, run_phase, hrun]
  | some s =>
    obtain ⟨outc, hclang⟩ := hcompile s rfl
    constructor <;> simp [compile_and_run_bitcode_file, hclang, run_phase, hrun]

/-- Closed witness for C2, at `T = 17/2`. -/
theorem execution_timeout_reports_configured_timeout_witness :
    (compile_and_run_bitcode_file ⟨CompileOutcome.completed 0 "", ExecOutcome.timeout⟩
        "$BIN" [] none 1 (17/2) 60).result.error.map ValidationError.type
      = some "Execution timeout"
    ∧ (compile_and_run_bitcode_file ⟨CompileOutcome.completed 0 "", ExecOutcome.timeout⟩
        "$BIN" [] none 1 (17/2) 60).result.walltime_seconds = 17/2 :=
  execution_timeout_reports_configured_timeout
    ⟨CompileOutcome.completed 0 "", ExecOutcome.timeout⟩ "$BIN" [] 1 none (17/2) 60 rfl
    (fun s hs => by cases hs)

/-- C10: when the sanitizer compile stage times out or the compiler exits non-zero,
the returned result reports `walltime_seconds` equal to the *execution* timeout
value `T`, not the compilation timeout `CT` and not an elapsed time. -/
theorem compilation_failure_walltime_is_execution_timeout
    (w : CompileRunWorld) (cmd : String) (linkopts : List String) (num_runs : Nat)
    (san : LlvmSanitizer) (T CT : Rat)
    (h : w.clang = CompileOutcome.timeout
         ∨ ∃ rc outc, w.clang = CompileOutcome.completed rc outc ∧ rc ≠ 0) :
    (compile_and_run_bitcode_file w cmd linkopts (some san) num_runs
        T CT).result.walltime_seconds = T
    ∧ ((compile_and_run_bitcode_file w cmd linkopts (some san) num_runs
          T CT).result.error.map ValidationError.type = some "Compilation timeout"
       ∨ (compile_and_run_bitcode_file w cmd linkopts (some san) num_runs
          T CT).result.error.map ValidationError.type = some "Compilation failed") := by
  rcases h with hclang | ⟨rc, outc, hclang, hrc⟩
  · exact ⟨by simp [compile_and_run_bitcode_file, hclang],
      Or.inl (by simp [compile_and_run_bitcode_file, hclang])⟩
  · exact ⟨by simp [compile_and_run_bitcode_file, hclang, hrc],
      Or.inr (by simp [compile_and_run_bitcode_file, hclang, hrc])⟩

/-- Closed witness for C10: a compile timeout with `T = 300`, `CT = 60` reports
walltime `300`. -/
theorem compilation_failure_walltime_is_execution_timeout_witness :
    (compile_and_run_bitcode_file ⟨CompileOutcome.timeout, ExecOutcome.timeout⟩
        "$BIN" [] (some LlvmSanitizer.ASAN) 1 300 60).result.walltime_seconds = 300
    ∧ ((compile_and_run_bitcode_file ⟨CompileOutcome.timeout, ExecOutcome.timeout⟩
          "$BIN" [] (some LlvmSanitizer.ASAN) 1 300 60).result.error.map
          ValidationError.type = some "Compilation timeout"
       ∨ (compile_and_run_bitcode_file ⟨CompileOutcome.timeout, ExecOutcome.timeout⟩
          "$BIN" [] (some LlvmSanitizer.ASAN) 1 300 60).result.error.map
          ValidationError.type = some "Compilation failed") :=
  compilation_failure_walltime_is_execution_timeout
    ⟨CompileOutcome.timeout, ExecOutcome.timeout⟩ "$BIN" [] 1 LlvmSanitizer.ASAN 300 60
    (Or.inl rfl)

/-- C7: with a sanitizer requested, clang is invoked exactly once, before any
benchmark execution; with no sanitizer, clang is never invoked and the benchmark is
executed directly through `lli` (the run command substitutes
"lli benchmark.bc" for `$BIN`). -/
theorem compile_stage_invoked_iff_sanitizer
    (w : CompileRunWorld) (cmd : String) (linkopts : List String) (num_runs : Nat)
    (san : Option LlvmSanitizer) (T CT : Rat) :
    (san.isSome = true →
      (compile_and_run_bitcode_file w cmd linkopts san num_runs
          T CT).steps.count CRStep.compileInvoke = 1
      ∧ (compile_and_run_bitcode_file w cmd linkopts san num_runs
          T CT).steps.head? = some CRStep.compileInvoke)
    ∧ (san = none →
      (compile_and_run_bitcode_file w cmd linkopts san num_runs
          T CT).steps.count CRStep.compileInvoke = 0
      ∧ (compile_and_run_bitcode_file w cmd linkopts san num_runs
          T CT).steps = [CRStep.execInvoke]
      ∧ (compile_and_run_bitcode_file w cmd linkopts san num_runs
          T CT).runCommand = strReplace cmd "$BIN" "lli benchmark.bc") := by
  constructor
  · intro hsan
    obtain ⟨s, rfl⟩ := Option.isSome_iff_exists.mp hsan
    cases hclang : w.clang with
    | timeout => simp [compile_and_run_bitcode_file, hclang]
    | completed rc outc =>
      by_cases hrc : rc = 0
      · subst hrc
        cases hrun : w.run with
        | timeout => simp [compile_and_run_bitcode_file, hclang, run_phase, hrun]
        | completed rc2 sd t2 =>
          by_cases hrc2 : rc2 = 0
          · subst hrc2
            simp [compile_and_run_bitcode_file, hclang, run_phase, hrun]
          · simp [compile_and_run_bitcode_file, hclang, run_phase, hrun, hrc2]
      · simp [compile_and_run_bitcode_file, hclang, hrc]
  · rintro rfl
    cases hrun : w.run with
    | timeout => simp [compile_and_run_bitcode_file, run_phase, hrun]
    | completed rc2 sd t2 =>
      by_cases hrc2 : rc2 = 0
      · subst hrc2
        simp [compile_and_run_bitcode_file, run_phase, hrun]
      · simp [compile_and_run_bitcode_file, run_phase, hrun, hrc2]

/-- Closed witness for C7: instantiations at a sanitized and an unsanitized call. -/
theorem compile_stage_invoked_iff_sanitizer_witness :
    (compile_and_run_bitcode_file
        ⟨CompileOutcome.completed 0 "", ExecOutcome.completed 0 (some "ok") 2⟩
        "$BIN 512" [] (some LlvmSanitizer.TSAN) 1 300 60).steps.count CRStep.compileInvoke = 1
    ∧ (compile_and_run_bitcode_file
        ⟨CompileOutcome.completed 0 "", ExecOutcome.completed 0 (some "ok") 2⟩
        "$BIN 512" [] none 1 300 60).steps.count CRStep.compileInvoke = 0
    ∧ (compile_and_run_bitcode_file
        ⟨CompileOutcome.completed 0 "", ExecOutcome.completed 0 (some "ok") 2⟩
        "$BIN 512" [] none 1 300 60).runCommand = strReplace "$BIN 512" "$BIN" "lli benchmark.bc" :=
  ⟨((compile_stage_invoked_iff_sanitizer
      ⟨CompileOutcome.completed 0 "", ExecOutcome.completed 0 (some "ok") 2⟩
      "$BIN 512" [] 1 (some LlvmSanitizer.TSAN) 300 60).1 (by decide)).1,
   ((compile_stage_invoked_iff_sanitizer
      ⟨CompileOutcome.completed 0 "", ExecOutcome.completed 0 (some "ok") 2⟩
      "$BIN 512" [] 1 none 300 60).2 rfl).1,
   ((compile_stage_invoked_iff_sanitizer
      ⟨CompileOutcome.completed 0 "", ExecOutcome.completed 0 (some "ok") 2⟩
      "$BIN 512" [] 1 none 300 60).2 rfl).2.2⟩

/-! ## Claims about `flaky_wrapped_cb` -/

/-- Whether the wrapper run ended by returning a `ValidationError` value. -/
def returnsAnError : WrapperResult → Bool
  | WrapperResult.err _ => true
  | _ => false

theorem flakyIter_all_timeouts (attempt : Nat → ValidatorOutcome)
    (h : ∀ j, attempt j = ValidatorOutcome.exn PyExc.timeoutError) :
    ∀ (js : List Nat) (calls : Nat),
      flakyIter attempt js none calls = (WrapperResult.unboundLocalError, calls + js.length) := by
  intro js
  induction js with
  | nil => intro calls; simp [flakyIter]
  | cons j rest ih =>
    intro calls
    simp only [flakyIter, h j, ih (calls + 1), List.length_cons, Prod.mk.injEq, true_and]
    omega

theorem flakyIter_all_errors (attempt : Nat → ValidatorOutcome) (f : Nat → ValidationError)
    (h : ∀ j, attempt j = ValidatorOutcome.ok (some (f j))) :
    ∀ (js : List Nat) (j0 : Nat) (lastE : Option ValidationError) (calls : Nat),
      flakyIter attempt (js ++ [j0]) lastE calls
        = (WrapperResult.err (f j0), calls + js.length + 1) := by
  intro js
  induction js with
  | nil => intro j0 lastE calls; simp [flakyIter, h j0]
  | cons j rest ih =>
    intro j0 lastE calls
    have hsplit : (j :: rest) ++ [j0] = j :: (rest ++ [j0]) := rfl
    rw [hsplit]
    simp only [flakyIter, h j, ih j0 (some (f j)) (calls + 1), List.length_cons,
      Prod.mk.injEq, true_and]
    omega

theorem flakyIter_calls_le (attempt : Nat → ValidatorOutcome) :
    ∀ (js : List Nat) (lastE : Option ValidationError) (calls : Nat),
      calls ≤ (flakyIter attempt js lastE calls).2 := by
  intro js
  induction js with
  | nil => intro lastE calls; simp [flakyIter]
  | cons j rest ih =>
    intro lastE calls
    match hj : attempt j with
    | ValidatorOutcome.ok none => simp [flakyIter, hj]
    | ValidatorOutcome.ok (some e) =>
      simp only [flakyIter, hj]
      exact le_trans (Nat.le_succ calls) (ih (some e) (calls + 1))
    | ValidatorOutcome.exn PyExc.timeoutError =>
      simp only [flakyIter, hj]
      exact le_trans (Nat.le_succ calls) (ih lastE (calls + 1))
    | ValidatorOutcome.exn (PyExc.fileNotFound m) => simp [flakyIter, hj]

theorem flakyIter_calls_pos (attempt : Nat → ValidatorOutcome)
    (j : Nat) (js : List Nat) (lastE : Option ValidationError) (calls : Nat) :
    calls + 1 ≤ (flakyIter attempt (j :: js) lastE calls).2 := by
  match hj : attempt j with
  | ValidatorOutcome.ok none => simp [flakyIter, hj]
  | ValidatorOutcome.ok (some e) =>
    simp only [flakyIter, hj]
    exact flakyIter_calls_le attempt js (some e) (calls + 1)
  | ValidatorOutcome.exn PyExc.timeoutError =>
    simp only [flakyIter, hj]
    exact flakyIter_calls_le attempt js lastE (calls + 1)
  | ValidatorOutcome.exn (PyExc.fileNotFound m) => simp [flakyIter, hj]

theorem max_flakiness_toNat_succ (flakiness : Int) :
    ∃ m, (max flakiness 1).toNat = m + 1 := by
  have h1 : (1 : Int) ≤ max flakiness 1 := le_max_right _ _
  refine ⟨(max flakiness 1).toNat - 1, ?_⟩
  omega

/-- C9: an attempt that succeeds on its first invocation is called exactly once,
whatever the configured budget; and for any attempt at all, the wrapper performs at
least one invocation, even when the configured budget is below 1. -/
theorem first_success_runs_attempt_once
    (flakiness : Int) (attempt : Nat → ValidatorOutcome)
    (h1 : attempt 1 = ValidatorOutcome.ok none) :
    flaky_wrapped_cb flakiness attempt = (WrapperResult.success, 1)
    ∧ ∀ attempt2 : Nat → ValidatorOutcome, 1 ≤ (flaky_wrapped_cb flakiness attempt2).2 := by
  obtain ⟨m, hm⟩ := max_flakiness_toNat_succ flakiness
  constructor
  · unfold flaky_wrapped_cb
    rw [hm, List.range'_succ]
    simp [flakyIter, h1]
  · intro attempt2
    unfold flaky_wrapped_cb
    rw [hm, List.range'_succ]
    exact flakyIter_calls_pos attempt2 1 _ none 0

/-- Closed witness for C9, with budget 1 and a budget below 1. -/
theorem first_success_runs_attempt_once_witness :
    flaky_wrapped_cb 1 (fun _ => ValidatorOutcome.ok none) = (WrapperResult.success, 1)
    ∧ 1 ≤ (flaky_wrapped_cb (-2) (fun _ => ValidatorOutcome.exn PyExc.timeoutError)).2 :=
  ⟨(first_success_runs_attempt_once 1 (fun _ => ValidatorOutcome.ok none) rfl).1,
   (first_success_runs_attempt_once (-2) (fun _ => ValidatorOutcome.ok none) rfl).2
     (fun _ => ValidatorOutcome.exn PyExc.timeoutError)⟩

/-- Counterexample to C3 as stated: with budget 5 and an attempt that raises the
retriable TimeoutError on every invocation, the wrapper does invoke the attempt
exactly 5 times, but it does not then return an error value: no error was ever
assigned, so the final `return error` statement trips an unbound-local fault. -/
theorem flaky_all_timeouts_returns_no_error :
    flaky_wrapped_cb 5 (fun _ => ValidatorOutcome.exn PyExc.timeoutError)
      = (WrapperResult.unboundLocalError, 5)
    ∧ returnsAnError
        (flaky_wrapped_cb 5 (fun _ => ValidatorOutcome.exn PyExc.timeoutError)).1 = false := by
  decide

/-- C3 amended: the wrapper invokes an always-failing attempt exactly
`max(flakiness, 1)` times.  If every invocation raised the retriable TimeoutError,
no error was ever observed and the wrapper faults with an unbound-variable error
instead of returning one; if every invocation returned a TypedError, the wrapper
returns the error observed on the last invocation. -/
theorem flaky_budget_exhaustion
    (flakiness : Int) (attempt attemptE : Nat → ValidatorOutcome) (f : Nat → ValidationError)
    (ht : ∀ j, attempt j = ValidatorOutcome.exn PyExc.timeoutError)
    (he : ∀ j, attemptE j = ValidatorOutcome.ok (some (f j))) :
    flaky_wrapped_cb flakiness attempt
      = (WrapperResult.unboundLocalError, (max flakiness 1).toNat)
    ∧ flaky_wrapped_cb flakiness attemptE
      = (WrapperResult.err (f ((max flakiness 1).toNat)), (max flakiness 1).toNat) := by
  obtain ⟨m, hm⟩ := max_flakiness_toNat_succ flakiness
  constructor
  · unfold flaky_wrapped_cb
    rw [flakyIter_all_timeouts attempt ht, List.length_range']
    rw [Nat.zero_add]
  · unfold flaky_wrapped_cb
    rw [hm, List.range'_1_concat, flakyIter_all_errors attemptE f he, List.length_range']
    rw [Nat.zero_add, Nat.add_comm 1 m]

/-- Closed witness for the amended C3: budget 3, attempts raising TimeoutError and
attempts returning numbered errors. -/
theorem flaky_budget_exhaustion_witness :
    flaky_wrapped_cb 3 (fun _ => ValidatorOutcome.exn PyExc.timeoutError)
      = (WrapperResult.unboundLocalError, (max (3 : Int) 1).toNat)
    ∧ flaky_wrapped_cb 3 (fun j => ValidatorOutcome.ok (some ⟨toString j, []⟩))
      = (WrapperResult.err ⟨toString ((max (3 : Int) 1).toNat), []⟩, (max (3 : Int) 1).toNat) :=
  flaky_budget_exhaustion 3 (fun _ => ValidatorOutcome.exn PyExc.timeoutError)
    (fun j => ValidatorOutcome.ok (some ⟨toString j, []⟩)) (fun j => ⟨toString j, []⟩)
    (fun _ => rfl) (fun _ => rfl)

/-! ## Claims about `validator_cb` -/

/-- C8: a required input file missing from the runtime-data directory makes the
validator raise `FileNotFoundError` with an empty event trace — before the scratch
directory is created and before either the oracle or the candidate is invoked —
and the flakiness wrapper does not catch this fault: it propagates after a single
invocation of the attempt. -/
theorem missing_input_raises_without_retry
    (cfg : ValidatorConfig) (w : AttemptWorld) (name : String)
    (hmem : name ∈ cfg.input_files)
    (hmissing : w.inputFileExists name = false) :
    (∃ msg, (validator_cb cfg w).1 = ValidatorOutcome.exn (PyExc.fileNotFound msg))
    ∧ (validator_cb cfg w).2 = []
    ∧ ∃ msg, flaky_wrapped_cb cfg.flakiness (fun _ => (validator_cb cfg w).1)
        = (WrapperResult.uncaught (PyExc.fileNotFound msg), 1) := by
  have hsome : (cfg.input_files.find? (fun n => ! w.inputFileExists n)).isSome = true :=
    List.find?_isSome.mpr ⟨name, hmem, by simp [hmissing]⟩
  obtain ⟨y, hy⟩ := Option.isSome_iff_exists.mp hsome
  have hv : validator_cb cfg w = (ValidatorOutcome.exn (PyExc.fileNotFound
      ("Required benchmark input not found: " ++ cbench_data ++ "/" ++ y)), []) := by
    unfold validator_cb
    rw [hy]
  refine ⟨⟨"Required benchmark input not found: " ++ cbench_data ++ "/" ++ y, by rw [hv]⟩,
    by rw [hv],
    ⟨"Required benchmark input not found: " ++ cbench_data ++ "/" ++ y, ?_⟩⟩
  obtain ⟨m, hm⟩ := max_flakiness_toNat_succ cfg.flakiness
  unfold flaky_wrapped_cb
  rw [hm, List.range'_succ]
  simp only [hv]
  simp [flakyIter]

/-- Configuration used by the closed C8 witness. -/
def c8_cfg : ValidatorConfig where
  cmd := "$BIN $D/office_data/1.txt"
  linkopts := []
  num_runs := 1
  compare_output := true
  input_files := ["office_data/1.txt"]
  output_files := []
  validate_result := none
  has_pre_execution_callback := false
  sanitizer := none
  flakiness := 5

/-- World used by the closed C8 witness: the required input file is absent. -/
def c8_world : AttemptWorld where
  inputFileExists := fun _ => false
  goldWorld := ⟨CompileOutcome.completed 0 "", ExecOutcome.completed 0 (some "ok") 2⟩
  goldFileContent := fun _ => none
  candWorld := ⟨CompileOutcome.completed 0 "", ExecOutcome.completed 0 (some "ok") 2⟩
  candFileContent := fun _ => none
  diffTool := fun _ _ => (0, some "")

/-- Closed witness for C8. -/
theorem missing_input_raises_without_retry_witness :
    (∃ msg, (validator_cb c8_cfg c8_world).1 = ValidatorOutcome.exn (PyExc.fileNotFound msg))
    ∧ (validator_cb c8_cfg c8_world).2 = []
    ∧ ∃ msg, flaky_wrapped_cb c8_cfg.flakiness (fun _ => (validator_cb c8_cfg c8_world).1)
        = (WrapperResult.uncaught (PyExc.fileNotFound msg), 1) :=
  missing_input_raises_without_retry c8_cfg c8_world "office_data/1.txt" (by decide) rfl

/-- C4: when the gold-standard (oracle) run returns an error, the validator
immediately returns a `ValidationError` whose type is the oracle's error type
prefixed with "Gold standard: " and whose data is the oracle error's data
unchanged; the candidate run, the console diff and the file diffs are never
performed in that attempt. -/
theorem gold_standard_error_returned_immediately
    (cfg : ValidatorConfig) (w : AttemptWorld) (e : ValidationError)
    (hcfg : (cfg.compare_output || ! cfg.output_files.isEmpty) = true)
    (hinputs : ∀ name ∈ cfg.input_files, w.inputFileExists name = true)
    (hgold : (compile_and_run_bitcode_file w.goldWorld (strReplace cfg.cmd "$D" cbench_data)
        (cfg.linkopts ++ ["-O2"]) none 1 300 60).result.error = some e) :
    (validator_cb cfg w).1 = ValidatorOutcome.ok
      (some { type := "Gold standard: " ++ e.type, data := e.data })
    ∧ VEvent.candRun ∉ (validator_cb cfg w).2
    ∧ VEvent.consoleDiff ∉ (validator_cb cfg w).2
    ∧ ∀ name, VEvent.fileDiff name ∉ (validator_cb cfg w).2 := by
  have hfind : cfg.input_files.find? (fun n => ! w.inputFileExists n) = none :=
    List.find?_eq_none.mpr (by intro x hx; simp [hinputs x hx])
  have hv : validator_cb cfg w = (ValidatorOutcome.ok
      (some { type := "Gold standard: " ++ e.type, data := e.data }),
      [VEvent.createScratch]
        ++ (if cfg.has_pre_execution_callback then [VEvent.preExecHook] else [])
        ++ [VEvent.goldRun]) := by
    unfold validator_cb
    rw [hfind]
    simp only [hcfg, if_true, hgold]
  refine ⟨by rw [hv], ?_, ?_, ?_⟩
  · rw [hv]
    cases cfg.has_pre_execution_callback <;> simp
  · rw [hv]
    cases cfg.has_pre_execution_callback <;> simp
  · intro name
    rw [hv]
    cases cfg.has_pre_execution_callback <;> simp

/-- World used by the closed C4 witness: the oracle's execution times out. -/
def c4_world : AttemptWorld where
  inputFileExists := fun _ => true
  goldWorld := ⟨CompileOutcome.completed 0 "", ExecOutcome.timeout⟩
  goldFileContent := fun _ => none
  candWorld := ⟨CompileOutcome.completed 0 "", ExecOutcome.completed 0 (some "ok") 2⟩
  candFileContent := fun _ => none
  diffTool := fun _ _ => (0, some "")

/-- The oracle error observed in the C4 witness world. -/
def c4_gold_error : ValidationError where
  type := "Execution timeout"
  data := [("runCommand", strReplace (strReplace c8_cfg.cmd "$D" cbench_data) "$BIN"
             "lli benchmark.bc"),
           ("timeout_seconds", toString (300 : Rat))]

/-- Closed witness for C4. -/
theorem gold_standard_error_returned_immediately_witness :
    (validator_cb c8_cfg c4_world).1 = ValidatorOutcome.ok
      (some { type := "Gold standard: " ++ c4_gold_error.type, data := c4_gold_error.data })
    ∧ VEvent.candRun ∉ (validator_cb c8_cfg c4_world).2
    ∧ VEvent.consoleDiff ∉ (validator_cb c8_cfg c4_world).2
    ∧ ∀ name, VEvent.fileDiff name ∉ (validator_cb c8_cfg c4_world).2 :=
  gold_standard_error_returned_immediately c8_cfg c4_world c4_gold_error (by decide)
    (fun name _ => rfl) (by decide)

/-- The result checker used in the C5 run: it always reports a (non-empty)
diagnostic, like `validate_sha_output` does on malformed output. -/
def c5_checker : BenchmarkExecutionResult → Option String :=
  fun _ => some "Failed to parse hex output"

/-- Configuration for the C5 run: a checker is configured. -/
def c5_cfg : ValidatorConfig where
  cmd := "$BIN $D/office_data/1.txt"
  linkopts := []
  num_runs := 1
  compare_output := true
  input_files := []
  output_files := []
  validate_result := some c5_checker
  has_pre_execution_callback := false
  sanitizer := none
  flakiness := 5

/-- World for the C5 run: oracle and candidate both succeed with identical
console output. -/
def c5_world : AttemptWorld where
  inputFileExists := fun _ => true
  goldWorld := ⟨CompileOutcome.completed 0 "", ExecOutcome.completed 0 (some "deadbeef") 2⟩
  goldFileContent := fun _ => none
  candWorld := ⟨CompileOutcome.completed 0 "", ExecOutcome.completed 0 (some "deadbeef") 1⟩
  candFileContent := fun _ => none
  diffTool := fun _ _ => (0, some "")

/-- C5 (code bug): the configured result checker, applied to the candidate's
`BenchmarkExecutionResult` exactly as `validator_cb` does at line 375, returns a
non-empty diagnostic — yet the attempt reports success (`None`), because line 375
discards the checker's return value. -/
theorem result_checker_diagnostic_is_discarded :
    c5_cfg.validate_result = some c5_checker
    ∧ c5_checker (compile_and_run_bitcode_file c5_world.candWorld
        (strReplace c5_cfg.cmd "$D" cbench_data) c5_cfg.linkopts c5_cfg.sanitizer
        c5_cfg.num_runs 300 60).result = some "Failed to parse hex output"
    ∧ (validator_cb c5_cfg c5_world).1 = ValidatorOutcome.ok none
    ∧ VEvent.resultHook ∈ (validator_cb c5_cfg c5_world).2 := by
  refine ⟨rfl, rfl, ?_, ?_⟩ <;> decide

/-- C6: the file-diff loop of the validator (lines 384–408), for a declared output
file generated by both the candidate and the oracle, given a diff utility that
exits 0 exactly on byte-identical inputs and produces output on differing inputs:
byte-identical files produce no "Wrong output (file)" error for that file (the loop
moves on), while any byte difference yields a "Wrong output (file)" error carrying
non-empty diff text — the "<binary>" sentinel when the diff output does not decode
as UTF-8. -/
theorem file_diff_wrong_output_classification
    (cfg : ValidatorConfig) (w : AttemptWorld) (name : String) (rest : List String)
    (candBytes goldBytes : List Nat)
    (hcand : w.candFileContent name = some candBytes)
    (hgold : w.goldFileContent name = some goldBytes)
    (heq0 : candBytes = goldBytes → (w.diffTool candBytes goldBytes).1 = 0)
    (hne0 : candBytes ≠ goldBytes → (w.diffTool candBytes goldBytes).1 ≠ 0)
    (hnonempty : candBytes ≠ goldBytes →
      (w.diffTool candBytes goldBytes).2 = none
      ∨ ∃ s, (w.diffTool candBytes goldBytes).2 = some s ∧ s ≠ "") :
    (candBytes = goldBytes →
      difftestOutputFiles cfg w (name :: rest) = difftestOutputFiles cfg w rest)
    ∧ (candBytes ≠ goldBytes →
      ∃ d, difftestOutputFiles cfg w (name :: rest)
          = some { type := "Wrong output (file)", data := [("path", name), ("diff", d)] }
        ∧ d ≠ ""
        ∧ ((w.diffTool candBytes goldBytes).2 = none → d = "<binary>")) := by
  constructor
  · intro heq
    have h0 := heq0 heq
    simp [difftestOutputFiles, hcand, hgold, h0]
  · intro hne
    have h0 := hne0 hne
    rcases hnonempty hne with hn | ⟨s, hs, hsne⟩
    · refine ⟨"<binary>", ?_, by decide, fun _ => rfl⟩
      simp [difftestOutputFiles, hcand, hgold, h0, hn]
    · refine ⟨s, ?_, hsne, ?_⟩
      · simp [difftestOutputFiles, hcand, hgold, h0, hs]
      · intro hcontra
        rw [hs] at hcontra
        cases hcontra

/-- World used by the closed C6 witness: the candidate file holds byte `88`, the
gold-standard sibling byte `89`, and the diff utility reports "1c1" on differing
inputs. -/
def c6_world : AttemptWorld where
  inputFileExists := fun _ => true
  goldWorld := ⟨CompileOutcome.completed 0 "", ExecOutcome.completed 0 (some "ok") 2⟩
  goldFileContent := fun _ => some [89]
  candWorld := ⟨CompileOutcome.completed 0 "", ExecOutcome.completed 0 (some "ok") 1⟩
  candFileContent := fun _ => some [88]
  diffTool := fun a b => if a = b then (0, some "") else (1, some "1c1")

/-- Closed witness for C6. -/
theorem file_diff_wrong_output_classification_witness :
    (([88] : List Nat) = [89] →
      difftestOutputFiles c8_cfg c6_world ["output.txt"] = difftestOutputFiles c8_cfg c6_world [])
    ∧ (([88] : List Nat) ≠ [89] →
      ∃ d, difftestOutputFiles c8_cfg c6_world ["output.txt"]
          = some { type := "Wrong output (file)", data := [("path", "output.txt"), ("diff", d)] }
        ∧ d ≠ ""
        ∧ ((c6_world.diffTool [88] [89]).2 = none → d = "<binary>")) :=
  file_diff_wrong_output_classification c8_cfg c6_world "output.txt" [] [88] [89]
    rfl rfl (fun h => by cases h) (fun _ => by decide) (fun _ => Or.inr ⟨"1c1", rfl, by decide⟩)
